import Mathlib

/-!
A verification development for the tasq distributed task-scheduling client.

The definitions below are a shallow embedding of the concurrency core found in
src/tasq/remote/client.py (the Tasq client state machine, its pending-job
buffer, results map, gathering loop and the client pool) and src/tasq/actor.py
(the mailbox actor and the simple Result container).  Python dictionaries are
modelled as association lists with unique keys, deques as lists (appendleft is
cons at the head, pop removes the last element), threads' observable state as
explicit flags, and raised exceptions as Except errors.  concurrent.futures
futures are modelled by their list of successful set_result payloads: the
standard library raises InvalidStateError on a second set_result, so the list
never grows past one element.
-/

namespace Tasq

/-- Status of a remote job execution.  Modelled from the spec: src/tasq/job.py
is not among the sources at hand; the spec lists the outcome enum values
SUCCESS and FAILED. -/
inductive JobStatus
  | success
  | failed
deriving DecidableEq

/-- Modelled from the spec: the Job value object of src/tasq/job.py (absent
from the sources at hand).  Fields: job_id (globally unique identifier,
generated when no name is supplied), name (logical identifier used as the
result-correlation key; defaults to job_id), func (opaque callable reference),
args and kwargs (opaque payloads). -/
structure Job where
  job_id : String
  name : String
  func : Nat
  args : List Nat
  kwargs : List (String × Nat)
deriving DecidableEq

/-- Modelled from the spec: the Job Result value object carried back over the
broker (src/tasq/job.py is absent from the sources at hand).  Fields: name
(matches the originating Job's correlation key), outcome, value, exc and
exec_time. -/
structure JobResult where
  name : String
  outcome : JobStatus
  value : Option Nat
  exc : Option String
  exec_time : Nat
deriving DecidableEq

/-- A generated unique identifier, standing in for uuid4: distinct from every
caller-supplied empty name and injective in the generation counter. -/
def genId (n : Nat) : String :=
  "u" ++ toString n

/-- Job construction as performed by BaseTasqClient.schedule: the name popped
from the kwargs (empty string when absent) is handed to the Job constructor,
which generates a fresh identifier when the name is empty and otherwise uses
the supplied name as both identifier and correlation key. -/
def mkJob (fresh : Nat) (name : String) (func : Nat) (args : List Nat)
    (kwargs : List (String × Nat)) : Job :=
  if name = "" then
    { job_id := genId fresh, name := genId fresh, func := func, args := args,
      kwargs := kwargs }
  else
    { job_id := name, name := name, func := func, args := args, kwargs := kwargs }

/-- The generation counter advances exactly when a fresh identifier was drawn,
i.e. when no name was supplied. -/
def bumpFresh (fresh : Nat) (name : String) : Nat :=
  if name = "" then fresh + 1 else fresh

/-- The caller-visible payload of a job: the function reference and the
arguments it was submitted with. -/
def Job.payload (j : Job) : Nat × List Nat × List (String × Nat) :=
  (j.func, j.args, j.kwargs)

/-- Python dict assignment d[k] = v: any previous binding of k is replaced.
Insertion order is not modelled; lookup and key uniqueness are. -/
def dictInsert (k : String) (v : Nat) (d : List (String × Nat)) :
    List (String × Nat) :=
  (k, v) :: d.filter (fun e => e.1 != k)

/-- Python dict lookup d[k], as an Option. -/
def dictLookup (k : String) : List (String × Nat) → Option Nat
  | [] => none
  | e :: rest => if e.1 = k then some e.2 else dictLookup k rest

/-- The observable state of a BaseTasqClient (src/tasq/remote/client.py).
results maps a correlation key to the index of a future in the futures store;
each future is represented by the list of values successfully assigned to it
by set_result.  pending models the deque of jobs buffered while disconnected
(appendleft conses at the head, pop takes the last element).  gathererStarted
records whether the gathering thread was ever started (its loop never returns,
so for a live thread this coincides with Thread.is_alive).  sent is the trace
of jobs handed to the broker connection's send, in order.  nextFresh feeds the
identifier generator. -/
structure ClientState where
  is_connected : Bool
  results : List (String × Nat)
  futures : List (List JobResult)
  pending : List Job
  gathererStarted : Bool
  sent : List Job
  nextFresh : Nat
deriving DecidableEq

/-- A freshly constructed client: disconnected, empty results map, no futures,
empty pending deque, gathering thread not yet started, nothing sent. -/
def initClientState : ClientState :=
  { is_connected := false, results := [], futures := [], pending := [],
    gathererStarted := false, sent := [], nextFresh := 0 }

/-- BaseTasqClient.schedule.  Pops the name from the kwargs, builds the Job,
then: if disconnected, appendleft onto the pending deque and return None; if
connected, allocate a fresh TasqFuture, insert it into the results dict keyed
by the raw name string, send the job, and return the future (here: its index
in the futures store). -/
def schedule (s : ClientState) (name : String) (func : Nat) (args : List Nat)
    (kwargs : List (String × Nat)) : ClientState × Option Nat :=
  let job := mkJob s.nextFresh name func args kwargs
  let s1 : ClientState := { s with nextFresh := bumpFresh s.nextFresh name }
  if s1.is_connected = false then
    ({ s1 with pending := job :: s1.pending }, none)
  else
    ({ s1 with
        futures := s1.futures ++ [[]],
        results := dictInsert name s1.futures.length s1.results,
        sent := s1.sent ++ [job] }, some s1.futures.length)

/-- The pending-drain loop inside connect: while the pending deque is
non-empty, pop its last element (the oldest job) and re-issue it through
schedule under its job_id as name.  The fuel argument bounds the iteration
count; connect invokes it with the current deque length, which suffices
because schedule on a connected client never refills the deque. -/
def connectLoop : Nat → ClientState → ClientState
  | 0, s => s
  | fuel + 1, s =>
    if h : s.pending = [] then s
    else
      let job := s.pending.getLast h
      connectLoop fuel
        (schedule { s with pending := s.pending.dropLast }
          job.job_id job.func job.args job.kwargs).1

/-- BaseTasqClient.connect (the ZMQ client inherits it): no-op when already
connected; otherwise open the broker connection, flip the flag, start the
gathering thread unless it is already alive, then drain the pending deque. -/
def baseConnect (s : ClientState) : ClientState :=
  if s.is_connected then s
  else
    let s1 : ClientState := { s with is_connected := true }
    let s2 : ClientState :=
      if s1.gathererStarted then s1 else { s1 with gathererStarted := true }
    connectLoop s2.pending.length s2

/-- RedisTasqClient.connect and RabbitMQTasqClient.connect: no-op when already
connected; otherwise flip the flag and call Thread.start on the gathering
thread unconditionally — Python's Thread.start raises RuntimeError when the
thread has already been started once — then drain the pending deque. -/
def redisConnect (s : ClientState) : Except String ClientState :=
  if s.is_connected then .ok s
  else
    if s.gathererStarted then
      .error "RuntimeError: threads can only be started once"
    else
      .ok (connectLoop s.pending.length
        { s with is_connected := true, gathererStarted := true })

/-- BaseTasqClient.disconnect (Redis and RabbitMQ variants agree on the
observable state): no-op when already disconnected, otherwise close the
broker connection and flip the flag.  The gathering thread is not stopped. -/
def disconnect (s : ClientState) : ClientState :=
  if s.is_connected then { s with is_connected := false } else s

/-- BaseTasqClient.schedule_blocking: raise TasqClientNotConnected at once
when disconnected, before any state is touched; otherwise delegate to
schedule and block on the returned future (the wait itself mutates no client
state, so only schedule's effect appears here). -/
def schedule_blocking (s : ClientState) (name : String) (func : Nat)
    (args : List Nat) (kwargs : List (String × Nat)) :
    ClientState × Except String (Option Nat) :=
  if s.is_connected = false then
    (s, .error "TasqClientNotConnected")
  else
    let r := schedule s name func args kwargs
    (r.1, .ok r.2)

/-- The body shared by every gathering loop once a job result is in hand:
look the result's name up in the results dict and call set_result on the
future found there.  A missing key raises KeyError, which the loop catches
and logs, leaving all state untouched.  set_result on a future that is
already resolved raises InvalidStateError (uncaught by the loop), which here
surfaces as an error; the future is not modified in that case. -/
def processResult (r : JobResult) (s : ClientState) : Except String ClientState :=
  match dictLookup r.name s.results with
  | none => .ok s
  | some fid =>
    match s.futures.get? fid with
    | none => .ok s
    | some l =>
      if l = [] then .ok { s with futures := s.futures.set fid [r] }
      else .error "InvalidStateError"

/-- What one receive attempt of the ZMQ gathering loop can observe: a value
(a job result or None) or a transport-level error of the caught classes
(zmq.error.ContextTerminated or zmq.error.ZMQError). -/
inductive RecvEvent
  | got (r : Option JobResult)
  | transientError
deriving DecidableEq

/-- One iteration of ZMQTasqClient._gather_results.  The binding argument is
the state of the local variable job_result before the iteration: none when it
has never been assigned, some v once it holds v.  On a successful receive the
variable is rebound; on a caught transport error the except branch only logs,
so the variable keeps its previous state — and the following truthiness test
on it raises NameError when it was never bound, or re-processes a stale
result.  The iteration yields the new binding and client state, or the
exception that escapes the loop. -/
def zmqGatherStep (binding : Option (Option JobResult)) (ev : RecvEvent)
    (s : ClientState) : Except String (Option (Option JobResult) × ClientState) :=
  let binding1 : Option (Option JobResult) :=
    match ev with
    | .got r => some r
    | .transientError => binding
  match binding1 with
  | none => .error "NameError: name job_result is not defined"
  | some none => .ok (some none, s)
  | some (some r) =>
    match processResult r s with
    | .ok s1 => .ok (some (some r), s1)
    | .error e => .error e

/-- TasqClientPool.map (src/tasq/remote/client.py): iterate over the
(args, kwargs) pairs keeping a cursor idx over the client list; each
iteration first resets idx to 0 when it equals len(clients) - 1 (the loop
body contains no other update of idx), lazily connects the client at idx if
needed, and schedules on it.  Returns the final client list together with the
trace of client indices chosen per pair. -/
def poolMapGo (K : Nat) (func : Nat) :
    Nat → List (List Nat × List (String × Nat)) → List ClientState →
    List ClientState × List Nat
  | _, [], cs => (cs, [])
  | idx, p :: rest, cs =>
    let idx1 := if idx = K - 1 then 0 else idx
    let cs1 :=
      match cs.get? idx1 with
      | none => cs
      | some c =>
        let c1 := if c.is_connected then c else baseConnect c
        cs.set idx1 (schedule c1 "" func p.1 p.2).1
    let res := poolMapGo K func idx1 rest cs1
    (res.1, idx1 :: res.2)

/-- Entry point of TasqClientPool.map: the cursor starts at 0 and the client
count is the length of the pool's client list. -/
def poolMap (clients : List ClientState) (func : Nat)
    (pairs : List (List Nat × List (String × Nat))) :
    List ClientState × List Nat :=
  poolMapGo clients.length func 0 pairs clients

/-- A message in an actor's mailbox (src/tasq/actor.py): either an ordinary
payload or the distinguished ActorExit sentinel that close() enqueues. -/
inductive ActorMsg (α : Type)
  | payload (a : α)
  | actorExit
deriving DecidableEq

/-- The payloads of a list of mailbox messages, in order. -/
def payloadsOf {α : Type} : List (ActorMsg α) → List α
  | [] => []
  | ActorMsg.payload a :: rest => a :: payloadsOf rest
  | ActorMsg.actorExit :: rest => payloadsOf rest

/-- The actor run loop (Actor.recv driven by a subclass run method that
dequeues and processes messages in a loop, wrapped by Actor._bootstrap):
messages are dequeued in FIFO order; an ordinary payload is processed; the
ActorExit sentinel raises, _bootstrap catches it and sets the terminated
event.  The result is the list of processed payloads, the mailbox content
left behind, and whether the terminated event was set (an empty mailbox means
recv blocks, so the loop has not terminated). -/
def runLoop {α : Type} : List (ActorMsg α) → List α × List (ActorMsg α) × Bool
  | [] => ([], [], false)
  | ActorMsg.payload a :: rest =>
    let r := runLoop rest
    (a :: r.1, r.2.1, r.2.2)
  | ActorMsg.actorExit :: rest => ([], rest, true)

/-- The Result container of src/tasq/actor.py: an Event plus a slot that is
None until set_result stores a value and sets the event. -/
structure ResultBox (α : Type) where
  eventIsSet : Bool
  slot : Option α
deriving DecidableEq

/-- A freshly constructed Result: event unset, slot None. -/
def ResultBox.init (α : Type) : ResultBox α :=
  { eventIsSet := false, slot := none }

/-- Result.set_result: store the value and set the event. -/
def ResultBox.set_result {α : Type} (_b : ResultBox α) (v : α) : ResultBox α :=
  { eventIsSet := true, slot := some v }

/-- Result.result(timeout): Event.wait returns either because the event was
set or because the timeout expired, and the method then returns the slot —
the stored value if a completion happened, None otherwise.  No exception is
raised on expiry. -/
def ResultBox.read {α : Type} (b : ResultBox α) : Option α :=
  b.slot

/-- TasqFuture.result(timeout), inherited unchanged from
concurrent.futures.Future: given the completion list of the future at the
moment the wait ends, return the completed value, or raise TimeoutError when
the future is still incomplete at expiry. -/
def tasqFutureResult (completions : List JobResult) : Except String JobResult :=
  match completions with
  | [] => .error "TimeoutError"
  | r :: _ => .ok r

/-- An operation on a single client, as visible to the results map and the
futures: a schedule call, a connect, a disconnect, or the gathering loop
processing one received job result.  When processing a result raises (the
uncaught InvalidStateError of a second set_result), the exception kills the
gathering thread before any mutation, so the client state is left as it
was. -/
inductive ClientOp
  | sched (name : String) (func : Nat) (args : List Nat)
      (kwargs : List (String × Nat))
  | connect
  | disconnect
  | recvResult (r : JobResult)

/-- Apply one operation to a client state. -/
def applyOp (s : ClientState) : ClientOp → ClientState
  | .sched n f a k => (schedule s n f a k).1
  | .connect => baseConnect s
  | .disconnect => disconnect s
  | .recvResult r =>
    match processResult r s with
    | .ok s1 => s1
    | .error _ => s

/-- Run a sequence of operations from a freshly constructed client. -/
def runOps (ops : List ClientOp) : ClientState :=
  ops.foldl applyOp initClientState

/-- One schedule request as issued by a caller: the name passed in the kwargs
(empty string when absent), the function and its arguments. -/
structure ScheduleReq where
  name : String
  func : Nat
  args : List Nat
  kwargs : List (String × Nat)
deriving DecidableEq

/-- The caller-visible payload of a request. -/
def ScheduleReq.payload (r : ScheduleReq) :
    Nat × List Nat × List (String × Nat) :=
  (r.func, r.args, r.kwargs)

/-- A sequence of schedule calls, applied left to right. -/
def scheduleAll (s : ClientState) (reqs : List ScheduleReq) : ClientState :=
  reqs.foldl (fun s r => (schedule s r.name r.func r.args r.kwargs).1) s

/-- A connected client with empty results map, futures store and pending
deque, and its gathering thread started: the state reached by connecting a
freshly constructed client. -/
def connectedEmptyClient : ClientState :=
  { initClientState with is_connected := true, gathererStarted := true }

/-- The two results-side invariants of the client: every future in the store
has been completed at most once, and the results dict binds each correlation
key at most once. -/
def SingleAssignment (s : ClientState) : Prop :=
  (∀ l ∈ s.futures, l.length ≤ 1) ∧ (s.results.map Prod.fst).Nodup

/-- A job result for the correlation key ghost, which no schedule call ever
entered into the results map. -/
def ghostResult : JobResult :=
  { name := "ghost", outcome := JobStatus.success, value := some 3,
    exc := none, exec_time := 1 }

/-- A job result for the correlation key a. -/
def aResult : JobResult :=
  { name := "a", outcome := JobStatus.success, value := some 3,
    exc := none, exec_time := 1 }

/-- A connected client holding exactly one uncompleted future, keyed a. -/
def oneSlotClient : ClientState :=
  { connectedEmptyClient with results := [("a", 0)], futures := [[]] }

theorem genId_ne_empty (n : Nat) : genId n ≠ "" := by
  intro h
  have hlen : (genId n).length = 0 := by rw [h]; rfl
  rw [genId, String.length_append] at hlen
  have hu : ("u" : String).length = 1 := rfl
  omega

theorem mkJob_job_id_ne (c : Nat) (n : String) (f : Nat) (a : List Nat)
    (k : List (String × Nat)) : (mkJob c n f a k).job_id ≠ "" := by
  rw [mkJob]
  split
  · exact genId_ne_empty c
  · simpa using by assumption

theorem mkJob_payload (c : Nat) (n : String) (f : Nat) (a : List Nat)
    (k : List (String × Nat)) : (mkJob c n f a k).payload = (f, a, k) := by
  rw [mkJob]
  split <;> rfl

theorem mkJob_func (c : Nat) (n : String) (f : Nat) (a : List Nat)
    (k : List (String × Nat)) : (mkJob c n f a k).func = f := by
  rw [mkJob]
  split <;> rfl

theorem mkJob_args (c : Nat) (n : String) (f : Nat) (a : List Nat)
    (k : List (String × Nat)) : (mkJob c n f a k).args = a := by
  rw [mkJob]
  split <;> rfl

theorem mkJob_kwargs (c : Nat) (n : String) (f : Nat) (a : List Nat)
    (k : List (String × Nat)) : (mkJob c n f a k).kwargs = k := by
  rw [mkJob]
  split <;> rfl

theorem schedule_disconnected (s : ClientState) (n : String) (f : Nat)
    (a : List Nat) (k : List (String × Nat)) (h : s.is_connected = false) :
    schedule s n f a k =
      ({ s with nextFresh := bumpFresh s.nextFresh n,
                pending := mkJob s.nextFresh n f a k :: s.pending }, none) := by
  simp [schedule, h]

theorem schedule_connected (s : ClientState) (n : String) (f : Nat)
    (a : List Nat) (k : List (String × Nat)) (h : s.is_connected = true) :
    schedule s n f a k =
      ({ s with nextFresh := bumpFresh s.nextFresh n,
                futures := s.futures ++ [[]],
                results := dictInsert n s.futures.length s.results,
                sent := s.sent ++ [mkJob s.nextFresh n f a k] },
       some s.futures.length) := by
  simp [schedule, h]

theorem schedule_connected_proj (s : ClientState) (n : String) (f : Nat)
    (a : List Nat) (k : List (String × Nat)) (h : s.is_connected = true) :
    (schedule s n f a k).1.is_connected = true ∧
    (schedule s n f a k).1.pending = s.pending ∧
    (schedule s n f a k).1.sent = s.sent ++ [mkJob s.nextFresh n f a k] := by
  rw [schedule_connected s n f a k h]
  exact ⟨h, rfl, rfl⟩

theorem connectLoop_succ (fuel : Nat) (s : ClientState) (hne : s.pending ≠ []) :
    connectLoop (fuel + 1) s =
      connectLoop fuel
        (schedule { s with pending := s.pending.dropLast }
          (s.pending.getLast hne).job_id (s.pending.getLast hne).func
          (s.pending.getLast hne).args (s.pending.getLast hne).kwargs).1 := by
  rw [connectLoop, dif_neg hne]

theorem connectLoop_drain : ∀ (fuel : Nat) (s : ClientState),
    s.is_connected = true → s.pending.length = fuel →
    (∀ j ∈ s.pending, j.job_id ≠ "") →
    (connectLoop fuel s).pending = [] ∧
    (connectLoop fuel s).sent.map Job.payload
      = s.sent.map Job.payload ++ (s.pending.map Job.payload).reverse
  | 0, s, _hc, hlen, _hids => by
    have hp : s.pending = [] := List.eq_nil_of_length_eq_zero hlen
    simp [connectLoop, hp]
  | fuel + 1, s, hc, hlen, hids => by
    have hne : s.pending ≠ [] := by
      intro h
      rw [h] at hlen
      simp at hlen
    rw [connectLoop_succ fuel s hne]
    set j := s.pending.getLast hne with hj
    have hc2 : ({ s with pending := s.pending.dropLast } :
        ClientState).is_connected = true := hc
    obtain ⟨ht1, ht2, ht3⟩ := schedule_connected_proj
      { s with pending := s.pending.dropLast } j.job_id j.func j.args j.kwargs hc2
    have ht2a : (schedule { s with pending := s.pending.dropLast }
        j.job_id j.func j.args j.kwargs).1.pending = s.pending.dropLast := ht2
    have ht3a : (schedule { s with pending := s.pending.dropLast }
        j.job_id j.func j.args j.kwargs).1.sent
        = s.sent ++ [mkJob s.nextFresh j.job_id j.func j.args j.kwargs] := ht3
    have hlen2 : (schedule { s with pending := s.pending.dropLast }
        j.job_id j.func j.args j.kwargs).1.pending.length = fuel := by
      rw [ht2a, List.length_dropLast, hlen]
      omega
    have hids2 : ∀ j2 ∈ (schedule { s with pending := s.pending.dropLast }
        j.job_id j.func j.args j.kwargs).1.pending, j2.job_id ≠ "" := by
      rw [ht2a]
      intro j2 hm
      exact hids j2 ((List.dropLast_sublist s.pending).subset hm)
    obtain ⟨ih1, ih2⟩ := connectLoop_drain fuel _ ht1 hlen2 hids2
    refine ⟨ih1, ?_⟩
    rw [ih2, ht3a, ht2a]
    have hpend : s.pending.dropLast ++ [j] = s.pending :=
      List.dropLast_append_getLast hne
    conv_rhs => rw [← hpend]
    simp [mkJob_payload, Job.payload, List.reverse_append, mkJob_func, mkJob_args,
      mkJob_kwargs]

theorem scheduleAll_disconnected : ∀ (reqs : List ScheduleReq) (s : ClientState),
    s.is_connected = false →
    (∀ j ∈ s.pending, j.job_id ≠ "") →
    (scheduleAll s reqs).is_connected = false ∧
    (scheduleAll s reqs).sent = s.sent ∧
    (scheduleAll s reqs).pending.map Job.payload
      = (reqs.map ScheduleReq.payload).reverse ++ s.pending.map Job.payload ∧
    (∀ j ∈ (scheduleAll s reqs).pending, j.job_id ≠ "")
  | [], s, hc, hp => ⟨hc, rfl, by simp [scheduleAll], hp⟩
  | r :: rest, s, hc, hp => by
    have hstep := schedule_disconnected s r.name r.func r.args r.kwargs hc
    have hunf : scheduleAll s (r :: rest)
        = scheduleAll (schedule s r.name r.func r.args r.kwargs).1 rest := rfl
    rw [hunf, hstep]
    have hp2 : ∀ j ∈ (mkJob s.nextFresh r.name r.func r.args r.kwargs :: s.pending),
        j.job_id ≠ "" := by
      intro j2 hm
      rcases List.mem_cons.1 hm with h | h
      · rw [h]
        exact mkJob_job_id_ne _ _ _ _ _
      · exact hp j2 h
    obtain ⟨ih1, ih2, ih3, ih4⟩ := scheduleAll_disconnected rest
      { s with nextFresh := bumpFresh s.nextFresh r.name,
               pending := mkJob s.nextFresh r.name r.func r.args r.kwargs :: s.pending }
      hc hp2
    refine ⟨ih1, ih2, ?_, ih4⟩
    rw [ih3]
    simp [mkJob_payload, ScheduleReq.payload, Job.payload, mkJob_func, mkJob_args,
      mkJob_kwargs, List.reverse_cons, List.append_assoc]

theorem baseConnect_eq (s : ClientState) (h : s.is_connected = false) :
    baseConnect s = connectLoop s.pending.length
      { s with is_connected := true, gathererStarted := true } := by
  obtain ⟨c, res, fut, pen, g, snt, nf⟩ := s
  simp only at h
  subst h
  cases g <;> simp [baseConnect]

/-- C4: for a disconnected client with an empty pending queue, N schedule
calls followed by one connect send exactly N jobs to the broker, carrying the
submitted payloads in the original submission order, and leave the pending
queue empty. -/
theorem C4_fifo_drain (reqs : List ScheduleReq) (s0 : ClientState)
    (h1 : s0.is_connected = false) (h2 : s0.pending = []) :
    (baseConnect (scheduleAll s0 reqs)).pending = [] ∧
    (baseConnect (scheduleAll s0 reqs)).sent.map Job.payload
      = s0.sent.map Job.payload ++ reqs.map ScheduleReq.payload := by
  obtain ⟨hc, hsent, hpend, hids⟩ := scheduleAll_disconnected reqs s0 h1
    (by rw [h2]; intro j hm; cases hm)
  rw [baseConnect_eq _ hc]
  set s1 := scheduleAll s0 reqs with hs1
  have hc2 : ({ s1 with
      is_connected := true,
      gathererStarted := true } : ClientState).is_connected = true := rfl
  obtain ⟨d1, d2⟩ := connectLoop_drain s1.pending.length
    { s1 with is_connected := true, gathererStarted := true } hc2 rfl hids
  refine ⟨d1, ?_⟩
  rw [d2]
  show s1.sent.map Job.payload ++ (s1.pending.map Job.payload).reverse = _
  rw [hsent, hpend, h2]
  simp

/-- Witness for C4 at a concrete input: two buffered requests drained by one
connect. -/
theorem C4_fifo_drain_witness :
    initClientState.is_connected = false ∧ initClientState.pending = [] ∧
    ((baseConnect (scheduleAll initClientState
        [⟨"a", 1, [2], []⟩, ⟨"", 3, [], []⟩])).pending = [] ∧
     (baseConnect (scheduleAll initClientState
        [⟨"a", 1, [2], []⟩, ⟨"", 3, [], []⟩])).sent.map Job.payload
       = initClientState.sent.map Job.payload
         ++ [⟨"a", 1, [2], []⟩, (⟨"", 3, [], []⟩ : ScheduleReq)].map
              ScheduleReq.payload) :=
  ⟨rfl, rfl, C4_fifo_drain [⟨"a", 1, [2], []⟩, ⟨"", 3, [], []⟩]
    initClientState rfl rfl⟩

theorem dictInsert_keys_nodup (k : String) (v : Nat) (d : List (String × Nat))
    (h : (d.map Prod.fst).Nodup) :
    ((dictInsert k v d).map Prod.fst).Nodup := by
  rw [dictInsert, List.map_cons]
  refine List.nodup_cons.mpr ⟨?_, ?_⟩
  · intro hmem
    obtain ⟨e, he, hk⟩ := List.mem_map.1 hmem
    have hf := List.of_mem_filter he
    rw [hk] at hf
    simp at hf
  · exact h.sublist ((List.filter_sublist d).map Prod.fst)

theorem singleAssignment_schedule (s : ClientState) (n : String) (f : Nat)
    (a : List Nat) (k : List (String × Nat)) (h : SingleAssignment s) :
    SingleAssignment (schedule s n f a k).1 := by
  obtain ⟨h1, h2⟩ := h
  cases hc : s.is_connected
  · rw [schedule_disconnected s n f a k hc]
    exact ⟨h1, h2⟩
  · rw [schedule_connected s n f a k hc]
    refine ⟨?_, dictInsert_keys_nodup _ _ _ h2⟩
    intro l hl
    rcases List.mem_append.1 hl with hm | hm
    · exact h1 l hm
    · rw [List.mem_singleton.1 hm]
      simp

theorem singleAssignment_connectLoop : ∀ (fuel : Nat) (s : ClientState),
    SingleAssignment s → SingleAssignment (connectLoop fuel s)
  | 0, _s, h => h
  | fuel + 1, s, h => by
    rw [connectLoop]
    split
    · exact h
    · exact singleAssignment_connectLoop fuel _ (singleAssignment_schedule _ _ _ _ _ h)

theorem singleAssignment_baseConnect (s : ClientState) (h : SingleAssignment s) :
    SingleAssignment (baseConnect s) := by
  cases hc : s.is_connected
  · rw [baseConnect_eq s hc]
    exact singleAssignment_connectLoop _ _ h
  · rw [baseConnect, if_pos hc]
    exact h

theorem singleAssignment_disconnect (s : ClientState) (h : SingleAssignment s) :
    SingleAssignment (disconnect s) := by
  rw [disconnect]
  split
  · exact h
  · exact h

theorem singleAssignment_processResult (r : JobResult) (s s2 : ClientState)
    (hp : processResult r s = .ok s2) (h : SingleAssignment s) :
    SingleAssignment s2 := by
  obtain ⟨h1, h2⟩ := h
  rw [processResult] at hp
  split at hp
  · cases hp
    exact ⟨h1, h2⟩
  · split at hp
    · cases hp
      exact ⟨h1, h2⟩
    · split at hp
      · cases hp
        refine ⟨?_, h2⟩
        intro l2 hl2m
        rcases List.mem_or_eq_of_mem_set hl2m with hm | hm
        · exact h1 l2 hm
        · rw [hm]
          simp
      · cases hp

theorem singleAssignment_applyOp (s : ClientState) (op : ClientOp)
    (h : SingleAssignment s) : SingleAssignment (applyOp s op) := by
  cases op with
  | sched n f a k => exact singleAssignment_schedule s n f a k h
  | connect => exact singleAssignment_baseConnect s h
  | disconnect => exact singleAssignment_disconnect s h
  | recvResult r =>
    rw [applyOp]
    rcases hp : processResult r s with e | s2
    · exact h
    · exact singleAssignment_processResult r s s2 hp h

theorem singleAssignment_foldl : ∀ (ops : List ClientOp) (s : ClientState),
    SingleAssignment s → SingleAssignment (ops.foldl applyOp s)
  | [], _s, h => h
  | op :: rest, s, h =>
    singleAssignment_foldl rest (applyOp s op) (singleAssignment_applyOp s op h)

/-- C5: along every sequence of schedule, connect, disconnect and
result-gathering operations on a client, the results map binds each
correlation key to at most one future, and no future is ever successfully
completed more than once (the standard-library future rejects a second
set_result instead of overwriting). -/
theorem C5_single_assignment (ops : List ClientOp) :
    (∀ l ∈ (runOps ops).futures, l.length ≤ 1) ∧
    ((runOps ops).results.map Prod.fst).Nodup := by
  have h : SingleAssignment (runOps ops) := by
    rw [runOps]
    refine singleAssignment_foldl ops initClientState ⟨?_, ?_⟩
    · intro l hl
      cases hl
    · exact List.nodup_nil
  exact h

/-- C1: evaluating TasqClientPool.map on a pool of two disconnected clients
and two (args, kwargs) pairs.  The cursor variable idx is only ever reset to
0 and never advanced, so both pairs are scheduled on client 0: the trace of
chosen client indices is [0, 0], not the round-robin [0 mod 2, 1 mod 2], and
client 1 sends nothing while client 0 sends both jobs. -/
theorem C1_pool_map_eval :
    (poolMap [initClientState, initClientState] 5 [([1], []), ([2], [])]).2
      = [0, 0] ∧
    [0, 0] ≠ [0 % 2, 1 % 2] ∧
    (poolMap [initClientState, initClientState] 5
        [([1], []), ([2], [])]).1.map (fun c => c.sent.length) = [2, 0] ∧
    (poolMap [initClientState, initClientState] 5
        [([1], []), ([2], [])]).1.map ClientState.is_connected
      = [true, false] := by
  decide

/-- C2: evaluating the Redis/RabbitMQ connect against the reconnect scenario.
The first connect on a fresh client succeeds and starts the gathering
thread; after a disconnect, the second connect calls Thread.start on the
already-started thread and raises RuntimeError instead of being a safe
reconnect.  The base-class connect used by the ZMQ client guards the start
with is_alive, so the same scenario leaves the loop started exactly once and
connect is a no-op when already connected. -/
theorem C2_reconnect_eval :
    redisConnect initClientState = .ok connectedEmptyClient ∧
    redisConnect (disconnect connectedEmptyClient)
      = .error "RuntimeError: threads can only be started once" ∧
    baseConnect (disconnect (baseConnect initClientState))
      = connectedEmptyClient ∧
    baseConnect connectedEmptyClient = connectedEmptyClient := by
  refine ⟨rfl, rfl, by decide, rfl⟩

/-- C3 counterexample: on a connected client, scheduling with no name (the
empty-string default) sends a Job whose correlation name is the generated
identifier u0, but the results map is keyed by the raw empty string: no
entry exists under the Job's correlation name. -/
theorem C3_counterexample :
    (schedule connectedEmptyClient "" 7 [] []).1.sent.map Job.name = ["u0"] ∧
    dictLookup "u0" (schedule connectedEmptyClient "" 7 [] []).1.results
      = none ∧
    dictLookup "" (schedule connectedEmptyClient "" 7 [] []).1.results
      = some 0 := by
  decide

/-- C3 (amended): schedule on a disconnected client appends the Job to the
pending queue and returns no handle, leaving sent, results and futures
unchanged; on a connected client it allocates a fresh empty future, inserts
it into the results map keyed by the caller-supplied name argument (which
equals the Job's correlation name exactly when a name was supplied), sends
the Job and returns the future. -/
theorem C3_amended_schedule (s : ClientState) (n : String) (f : Nat)
    (a : List Nat) (k : List (String × Nat)) :
    (s.is_connected = false →
      (schedule s n f a k).2 = none ∧
      (schedule s n f a k).1.sent = s.sent ∧
      (schedule s n f a k).1.results = s.results ∧
      (schedule s n f a k).1.futures = s.futures ∧
      (schedule s n f a k).1.pending
        = mkJob s.nextFresh n f a k :: s.pending) ∧
    (s.is_connected = true →
      (schedule s n f a k).2 = some s.futures.length ∧
      (schedule s n f a k).1.futures[s.futures.length]? = some [] ∧
      dictLookup n (schedule s n f a k).1.results = some s.futures.length ∧
      (schedule s n f a k).1.pending = s.pending ∧
      (schedule s n f a k).1.sent
        = s.sent ++ [mkJob s.nextFresh n f a k]) := by
  constructor
  · intro h
    rw [schedule_disconnected s n f a k h]
    exact ⟨rfl, rfl, rfl, rfl, rfl⟩
  · intro h
    rw [schedule_connected s n f a k h]
    refine ⟨rfl, ?_, ?_, rfl, rfl⟩
    · exact List.getElem?_concat_length s.futures []
    · simp [dictLookup, dictInsert]

/-- Witness for C3 at a concrete connected client. -/
theorem C3_amended_witness :
    connectedEmptyClient.is_connected = true ∧
    (schedule connectedEmptyClient "a" 7 [] []).2 = some 0 ∧
    dictLookup "a" (schedule connectedEmptyClient "a" 7 [] []).1.results
      = some 0 := by
  have h := (C3_amended_schedule connectedEmptyClient "a" 7 [] []).2 rfl
  exact ⟨rfl, h.1, h.2.2.1⟩

/-- C6 counterexample: TasqFuture.result inherits the concurrent.futures
behaviour, so calling result with a timeout on a future that is still
uncompleted when the timeout expires raises TimeoutError instead of
returning an unresolved indication. -/
theorem C6_counterexample :
    tasqFutureResult [] = .error "TimeoutError" := rfl

/-- C6 (amended): the actor-module Result returns None from result(timeout)
when no completion happened before expiry, without raising, and a later
set_result delivers the value to subsequent reads; the client-side
TasqFuture delivers a completed value but raises TimeoutError on expiry. -/
theorem C6_amended_timeout (α : Type) (v : α) (r : JobResult) :
    (ResultBox.init α).read = none ∧
    ((ResultBox.init α).set_result v).read = some v ∧
    tasqFutureResult [r] = .ok r ∧
    tasqFutureResult [] = .error "TimeoutError" :=
  ⟨rfl, rfl, rfl, rfl⟩

/-- C7: evaluating one iteration of the ZMQ gathering loop.  When the very
first receive raises one of the caught transport errors, the except branch
only logs, and the following truthiness test reads the never-assigned local
job_result, raising NameError out of the loop; with a previously bound falsy
value the iteration does continue. -/
theorem C7_gather_error_eval :
    zmqGatherStep none RecvEvent.transientError initClientState
      = .error "NameError: name job_result is not defined" ∧
    zmqGatherStep (some none) RecvEvent.transientError initClientState
      = .ok (some none, initClientState) :=
  ⟨rfl, rfl⟩

/-- C8: a job result whose correlation name is absent from the results map
is dropped by the KeyError handler: the loop iteration succeeds (no
exception escapes), the client state including every future is unchanged,
and a subsequent result whose key is present still completes its future. -/
theorem C8_unknown_key (r r2 : JobResult) (s : ClientState) (fid : Nat)
    (h : dictLookup r.name s.results = none)
    (h2 : dictLookup r2.name s.results = some fid)
    (h3 : s.futures.get? fid = some []) :
    processResult r s = .ok s ∧
    zmqGatherStep (some none) (RecvEvent.got (some r)) s = .ok (some (some r), s) ∧
    processResult r2 s = .ok { s with futures := s.futures.set fid [r2] } := by
  have hdrop : processResult r s = .ok s := by
    rw [processResult, h]
  refine ⟨hdrop, ?_, ?_⟩
  · rw [zmqGatherStep]
    simp only [hdrop]
  · simp only [processResult, h2, h3]
    simp

/-- Witness for C8: the ghost result is dropped while a result keyed a
completes the single outstanding future. -/
theorem C8_unknown_key_witness :
    dictLookup ghostResult.name oneSlotClient.results = none ∧
    dictLookup aResult.name oneSlotClient.results = some 0 ∧
    oneSlotClient.futures.get? 0 = some [] ∧
    (processResult ghostResult oneSlotClient = .ok oneSlotClient ∧
     zmqGatherStep (some none) (RecvEvent.got (some ghostResult)) oneSlotClient
       = .ok (some (some ghostResult), oneSlotClient) ∧
     processResult aResult oneSlotClient
       = .ok { oneSlotClient with futures := oneSlotClient.futures.set 0 [aResult] }) :=
  ⟨by decide, by decide, by decide,
   C8_unknown_key ghostResult aResult oneSlotClient 0
     (by decide) (by decide) (by decide)⟩

/-- C9: schedule_blocking on a disconnected client raises
TasqClientNotConnected before anything else runs: the returned state is the
input state unchanged — nothing is appended to the pending queue and the
results map is untouched. -/
theorem C9_not_connected (s : ClientState) (n : String) (f : Nat)
    (a : List Nat) (k : List (String × Nat)) (h : s.is_connected = false) :
    schedule_blocking s n f a k = (s, .error "TasqClientNotConnected") := by
  rw [schedule_blocking, if_pos h]

/-- Witness for C9 on a fresh disconnected client. -/
theorem C9_not_connected_witness :
    initClientState.is_connected = false ∧
    schedule_blocking initClientState "a" 1 [2] []
      = (initClientState, .error "TasqClientNotConnected") :=
  ⟨rfl, C9_not_connected initClientState "a" 1 [2] [] rfl⟩

/-- C10: when the mailbox holds the messages enqueued before close, then the
ActorExit sentinel, then any later messages, the run loop processes exactly
the earlier payloads, reaches the terminated state, and leaves every message
enqueued after the sentinel unprocessed; a duplicate close (second sentinel)
changes nothing — the loop exits on the first sentinel it dequeues. -/
theorem C10_close_join (α : Type) (pre post : List (ActorMsg α))
    (hpre : ActorMsg.actorExit ∉ pre) :
    runLoop (pre ++ ActorMsg.actorExit :: post)
      = (payloadsOf pre, post, true) ∧
    runLoop (pre ++ ActorMsg.actorExit :: ActorMsg.actorExit :: post)
      = (payloadsOf pre, ActorMsg.actorExit :: post, true) := by
  induction pre with
  | nil => exact ⟨rfl, rfl⟩
  | cons m rest ih =>
    cases m with
    | payload a =>
      have h2 : ActorMsg.actorExit ∉ rest := fun hm =>
        hpre (List.mem_cons_of_mem _ hm)
      obtain ⟨ih1, ih2⟩ := ih h2
      constructor
      · show runLoop (ActorMsg.payload a :: (rest ++ ActorMsg.actorExit :: post))
          = _
        rw [runLoop, ih1]
        rfl
      · show runLoop (ActorMsg.payload a
            :: (rest ++ ActorMsg.actorExit :: ActorMsg.actorExit :: post)) = _
        rw [runLoop, ih2]
        rfl
    | actorExit => exact absurd (List.mem_cons_self _ _) hpre

/-- Witness for C10: one message before close, one enqueued after. -/
theorem C10_close_join_witness :
    (ActorMsg.actorExit ∉ [ActorMsg.payload (1 : Nat)]) ∧
    (runLoop ([ActorMsg.payload (1 : Nat)]
        ++ ActorMsg.actorExit :: [ActorMsg.payload 2])
      = ([1], [ActorMsg.payload 2], true) ∧
     runLoop ([ActorMsg.payload (1 : Nat)]
        ++ ActorMsg.actorExit :: ActorMsg.actorExit :: [ActorMsg.payload 2])
      = ([1], ActorMsg.actorExit :: [ActorMsg.payload 2], true)) :=
  ⟨by decide,
   C10_close_join Nat [ActorMsg.payload 1] [ActorMsg.payload 2] (by decide)⟩
